import Mathlib

/-!
Verification of the nsk-pulscen crawler against its specification.

The Python source is shallowly embedded: pure control flow becomes Lean
functions, HTML extraction (BeautifulSoup selector code) is abstracted as
environment functions supplied to the control flow, exceptions become
`Except`/`Option`, and the `asyncio.gather` of the event loop over product tasks
is modelled as a sequential fold whose error case models an uncaught
exception propagating out of the batch.
-/

namespace Pulscen

/-- A product link as extracted by `parse_links` in `parse_product_links.py`
(`ProductLink` dataclass: title and absolute url). -/
structure ProductLink where
  title : String
  url : String
  deriving DecidableEq, Repr

/-- Environment abstracting the I/O and HTML-extraction callees of
`parse_product_links.parse`: `fetch_html` (the HTML body the server returns
for a requested page URL, after any redirects aiohttp follows silently),
`parse_links(html, base_url)` and `find_next_page(html, current_url)`.
`findNextPage` returning `none` models Python `None`; the empty string models
a falsy (empty) return value, which the loop also treats as "no next page". -/
structure WalkEnv where
  fetchHtml : String → String
  parseLinks : String → String → List ProductLink
  findNextPage : String → String → Option String

/-- The body of the `while page_url:` loop of `parse_product_links.parse`,
with fuel making the possibly diverging loop total: `none` means the loop has
not terminated within `fuel` iterations.  Besides the accumulated `results`
list the embedding records the trace of page URLs actually fetched, so that
claims about "no further fetches" can be stated.  Mirrors:
`html = fetch_html(page_url); links = parse_links(html, url);
results.extend(links); next_page = find_next_page(html, page_url);
if next_page and next_page != page_url: page_url = next_page else: break`. -/
def walkAux (env : WalkEnv) (base : String) :
    Nat → String → List ProductLink → List String →
    Option (List ProductLink × List String)
  | 0, _, _, _ => none
  | fuel + 1, pageUrl, results, fetched =>
    let html := env.fetchHtml pageUrl
    let links := env.parseLinks html base
    let results := results ++ links
    let fetched := fetched ++ [pageUrl]
    match env.findNextPage html pageUrl with
    | some next =>
        if next = "" ∨ next = pageUrl then some (results, fetched)
        else walkAux env base fuel next results fetched
    | none => some (results, fetched)

/-- `parse_product_links.parse(url)`: run the pagination loop from `url`
(also the `base_url` passed to `parse_links` on every page).  The initial
`while page_url:` test makes an empty starting URL return immediately. -/
def walk (env : WalkEnv) (url : String) (fuel : Nat) :
    Option (List ProductLink × List String) :=
  if url = "" then some ([], []) else walkAux env url fuel url [] []

/-- The pagination walk terminates: some amount of fuel suffices. -/
def WalkTerminates (env : WalkEnv) (url : String) : Prop :=
  ∃ fuel, (walk env url fuel).isSome

/-! ## `utils.fetch_html_with_retries` -/

/-- Outcome of `utils.fetch_html_with_retries`.  `ok` carries the returned
`(html, final_url)` pair; `fetchError` carries the `last_exc` chained as the
cause of the raised `FetchError`; `fellThrough` models the implicit `None`
returned when `range(1, retries+1)` is empty (`retries = 0`).  Every outcome
records the 1-based attempt numbers tried and the backoff sleeps performed,
in order. -/
inductive FetchOutcome (E R : Type) where
  | ok (result : R) (attempts : List Nat) (sleeps : List Nat)
  | fetchError (cause : E) (attempts : List Nat) (sleeps : List Nat)
  | fellThrough
  deriving DecidableEq, Repr

namespace FetchOutcome

/-- Attempt numbers an outcome records (`fellThrough` tried none). -/
def attemptsOf {E R : Type} : FetchOutcome E R → List Nat
  | ok _ a _ => a
  | fetchError _ a _ => a
  | fellThrough => []

/-- Backoff sleeps an outcome records. -/
def sleepsOf {E R : Type} : FetchOutcome E R → List Nat
  | ok _ _ s => s
  | fetchError _ _ s => s
  | fellThrough => []

end FetchOutcome

/-- Body of the `for attempt in range(1, retries + 1)` loop of
`fetch_html_with_retries`, one attempt per fuel unit (`remaining` counts the
attempt numbers still available, so `attempt + remaining = retries + 1` at
every call). `attemptRes n` is what `_fetch_with_playwright` does on the
`n`-th attempt: a result, or an exception (`RuntimeError`, playwright
`Error`, or any other `Exception` — all three handlers behave alike: record
`last_exc`, then `raise FetchError(...) from last_exc` if `attempt ==
retries`, else `await asyncio.sleep(2 * attempt)`). -/
def fetchGo {E R : Type} (attemptRes : Nat → Except E R) (retries : Nat) :
    Nat → Nat → List Nat → List Nat → FetchOutcome E R
  | 0, _, _, _ => .fellThrough
  | remaining + 1, attempt, tried, sleeps =>
    let tried := tried ++ [attempt]
    match attemptRes attempt with
    | .ok r => .ok r tried sleeps
    | .error exc =>
        if attempt = retries then .fetchError exc tried sleeps
        else fetchGo attemptRes retries remaining (attempt + 1) tried
          (sleeps ++ [2 * attempt])

/-- `utils.fetch_html_with_retries(url, retries=retries)`: attempts are
numbered `1, …, retries`. -/
def fetch_html_with_retries {E R : Type} (attemptRes : Nat → Except E R)
    (retries : Nat) : FetchOutcome E R :=
  fetchGo attemptRes retries retries 1 [] []

/-! ## `parse_all_products.gather_product_links` -/

/-- `gather_product_links(category_url)`: fetch the subcategory list, then
walk the listing pages of each subcategory in order, extending `links` with the
URLs found.  `subcatsOf` models `parse_categories.parse` and `walkOf` models
`parse_product_links.parse` for one subcategory URL; either may raise
(`.error`).  The `for sub in subcats:` loop contains no `try/except`, so a
raised exception propagates out of the whole function. -/
def gather_product_links {E : Type} (subcatsOf : String → Except E (List String))
    (walkOf : String → Except E (List ProductLink)) (categoryUrl : String) :
    Except E (List String) := do
  let subcats ← subcatsOf categoryUrl
  subcats.foldlM (fun links sub => do
    let subLinks ← walkOf sub
    pure (links ++ subLinks.map (·.url))) []

/-! ## `utils.atomic_writer` -/

/-- A filesystem: each path maps to the content of a file, or to nothing. -/
def Fs : Type := String → Option String

/-- Create or overwrite a file (`open(p, "w")` / a completed `os.replace`
target). -/
def fsWrite (fs : Fs) (p : String) (c : String) : Fs :=
  fun q => if q = p then some c else fs q

/-- Remove a file (`os.remove` / the source side of `os.replace`). -/
def fsRemove (fs : Fs) (p : String) : Fs :=
  fun q => if q = p then none else fs q

/-- `os.path.dirname`: everything before the last `/`, empty if there is
none (sufficient for the relative and absolute paths the CLI passes). -/
def dirname (p : String) : String :=
  ⟨((p.data.reverse.dropWhile (· ≠ '/')).drop 1).reverse⟩

/-- What the `with atomic_writer(out_file) as fh:` body did before control
left it: the content written to the temporary file so far (possibly
partial), and whether the body was exited by a fatal error instead of
completing. -/
structure WriterRun where
  written : String
  fatal : Bool

/-- `utils.atomic_writer(path)` around one run.  `mkstemp d` is the fresh
name `tempfile.mkstemp(dir=d)` picks inside directory
`os.path.dirname(path) or "."`; the temp file is created empty, the body
writes to it, then on normal exit `os.replace(tmp_path, path)` renames it
over the destination; the `os.remove(tmp_path)` in the `finally` block deletes
the leftover temp file (after a rename it is already gone and the
`FileNotFoundError` is passed). -/
def atomic_writer (mkstemp : String → String) (fs : Fs) (path : String)
    (run : WriterRun) : Fs :=
  let dir := if dirname path = "" then "." else dirname path
  let tmp := mkstemp dir
  let fs1 := fsWrite fs tmp ""
  let fs2 := fsWrite fs1 tmp run.written
  if run.fatal then fsRemove fs2 tmp
  else fsWrite (fsRemove fs2 tmp) path run.written

/-! ## Numeric literal conversion (`int()` / `float()` on attribute strings)

The Python `float` builtin parses a decimal literal; its value is modelled exactly as
a rational (the claims at issue concern only the sign of the value and
whether the conversion raises `ValueError`, never rounding). -/

/-- The numeric value of a non-empty all-digit character list, `none`
otherwise. -/
def decDigits : List Char → Option Nat
  | [] => none
  | cs => if cs.all Char.isDigit then
      some (cs.foldl (fun n c => 10 * n + (c.toNat - 48)) 0) else none

/-- Python `int(s)` on the attribute strings at issue: optional sign, then
digits; `none` models the `ValueError` raised on anything else. -/
def pyInt (s : String) : Option Int :=
  match s.data with
  | '-' :: rest => (decDigits rest).map (fun n => -(n : Int))
  | '+' :: rest => (decDigits rest).map (fun n => (n : Int))
  | cs => (decDigits cs).map (fun n => (n : Int))

/-- Magnitude of a Python float literal: `digits`, `digits.`, `.digits` or
`digits.digits`. -/
def pyFloatMag (cs : List Char) : Option ℚ :=
  let intPart := cs.takeWhile (· ≠ '.')
  match cs.dropWhile (· ≠ '.') with
  | [] => (decDigits intPart).map (fun n => (n : ℚ))
  | '.' :: frac =>
      if frac.contains '.' then none
      else
        match intPart, frac with
        | [], [] => none
        | [], _ => (decDigits frac).map (fun f => (f : ℚ) / 10 ^ frac.length)
        | _, [] => (decDigits intPart).map (fun n => (n : ℚ))
        | _, _ => do
            let i ← decDigits intPart
            let f ← decDigits frac
            pure ((i : ℚ) + (f : ℚ) / 10 ^ frac.length)
  | _ => none

/-- Python `float(s)` on attribute strings: optional sign then a decimal
magnitude; `none` models the `ValueError` raised on anything else. -/
def pyFloat (s : String) : Option ℚ :=
  match s.data with
  | '-' :: rest => (pyFloatMag rest).map (fun q => -q)
  | '+' :: rest => pyFloatMag rest
  | cs => pyFloatMag cs

/-! ## The record types of `parse_product.py` -/

/-- `PriceInfo` dataclass of `parse_product.py`. -/
structure PriceInfo where
  qnt : Int
  discount : Option ℚ
  price : ℚ
  deriving DecidableEq, Repr

/-- `SupplierOffer` dataclass of `parse_product.py`. -/
structure SupplierOffer where
  price : List PriceInfo
  stock : Option String
  delivery_time : Option String
  package_info : Option String
  purchase_url : Option String
  deriving DecidableEq, Repr

/-- `Supplier` dataclass of `parse_product.py` (unlike `models.py`, it has
no `supplier_url` field). -/
structure Supplier where
  dealer_id : Option String
  supplier_name : Option String
  supplier_tel : Option String
  supplier_address : Option String
  supplier_description : Option String
  supplier_offers : List SupplierOffer
  deriving DecidableEq, Repr

/-- `Attribute` dataclass of `parse_product.py`. -/
structure Attribute where
  attr_name : String
  attr_value : String
  deriving DecidableEq, Repr

/-- `Product` dataclass of `parse_product.py`: note it has no URL field. -/
structure Product where
  title : Option String
  description : Option String
  article : Option String
  brand : Option String
  country_of_origin : Option String
  warranty_months : Option String
  category : Option String
  created_at : Option String
  attributes : List Attribute
  suppliers : List Supplier
  deriving DecidableEq, Repr

/-! ## `dataclasses.asdict` and the dict `parse_product.parse` returns -/

/-- A Python value as it appears in the dict built by `dataclasses.asdict`. -/
inductive PyValue where
  | pyNone
  | pyStr (s : String)
  | pyInt (n : Int)
  | pyFloat (q : ℚ)
  | pyList (xs : List PyValue)
  | pyDict (kvs : List (String × PyValue))
  deriving Repr

/-- `asdict` image of an `Optional[str]` field. -/
def optStrVal : Option String → PyValue
  | Option.none => .pyNone
  | Option.some s => .pyStr s

/-- `asdict` image of an `Optional[float]` field. -/
def optRatVal : Option ℚ → PyValue
  | Option.none => .pyNone
  | Option.some q => .pyFloat q

/-- `asdict` on a `PriceInfo`. -/
def asdictPriceInfo (p : PriceInfo) : PyValue :=
  .pyDict [("qnt", .pyInt p.qnt), ("discount", optRatVal p.discount),
    ("price", .pyFloat p.price)]

/-- `asdict` on a `SupplierOffer`. -/
def asdictOffer (o : SupplierOffer) : PyValue :=
  .pyDict [("price", .pyList (o.price.map asdictPriceInfo)),
    ("stock", optStrVal o.stock),
    ("delivery_time", optStrVal o.delivery_time),
    ("package_info", optStrVal o.package_info),
    ("purchase_url", optStrVal o.purchase_url)]

/-- `asdict` on a `Supplier`. -/
def asdictSupplier (s : Supplier) : PyValue :=
  .pyDict [("dealer_id", optStrVal s.dealer_id),
    ("supplier_name", optStrVal s.supplier_name),
    ("supplier_tel", optStrVal s.supplier_tel),
    ("supplier_address", optStrVal s.supplier_address),
    ("supplier_description", optStrVal s.supplier_description),
    ("supplier_offers", .pyList (s.supplier_offers.map asdictOffer))]

/-- `asdict` on an `Attribute`. -/
def asdictAttribute (a : Attribute) : PyValue :=
  .pyDict [("attr_name", .pyStr a.attr_name), ("attr_value", .pyStr a.attr_value)]

/-- The dict `parse_product.parse(url)` returns: `asdict(product)`, whose
keys are exactly the `Product` dataclass fields. -/
def asdictProduct (p : Product) : List (String × PyValue) :=
  [("title", optStrVal p.title),
   ("description", optStrVal p.description),
   ("article", optStrVal p.article),
   ("brand", optStrVal p.brand),
   ("country_of_origin", optStrVal p.country_of_origin),
   ("warranty_months", optStrVal p.warranty_months),
   ("category", optStrVal p.category),
   ("created_at", optStrVal p.created_at),
   ("attributes", .pyList (p.attributes.map asdictAttribute)),
   ("suppliers", .pyList (p.suppliers.map asdictSupplier))]

/-- Subscripting `product[k]`: `none` models the `KeyError` Python raises
when the key is absent. -/
def dictGet (d : List (String × PyValue)) (k : String) : Option PyValue :=
  d.lookup k

/-! ## The price-row loop of `parse_product.parse_suppliers` -/

/-- One `.price-row` element of a supplier offer block: its
`data-quantity`, `data-price` and `data-discount` attributes (`none` models
`Tag.get` returning `None` when the attribute is absent). -/
structure PriceRow where
  data_quantity : Option String
  data_price : Option String
  data_discount : Option String
  deriving DecidableEq, Repr

/-- The `for price_row in offer_block.select('.price-row')` loop of
`parse_suppliers`: a row is appended only under `if price:` (the attribute
is present and non-empty); `qnt` falls back to `1` and `disc` to `None`
when falsy.  The outer `none` models an uncaught `ValueError` from `int()`
or `float()`, which aborts the whole product parse. -/
def parsePriceRows : List PriceRow → Option (List PriceInfo)
  | [] => some []
  | row :: rest =>
    match row.data_price with
    | Option.none => parsePriceRows rest
    | Option.some p =>
      if p = "" then parsePriceRows rest
      else do
        let qnt ← match row.data_quantity with
          | Option.none => some (1 : Int)
          | Option.some q => if q = "" then some (1 : Int) else pyInt q
        let disc ← match row.data_discount with
          | Option.none => some (Option.none : Option ℚ)
          | Option.some d =>
              if d = "" then some (Option.none : Option ℚ)
              else (pyFloat d).map Option.some
        let price ← pyFloat p
        let tail ← parsePriceRows rest
        pure (⟨qnt, disc, price⟩ :: tail)

/-! ## The task body and product pipeline of `parse_all_products.py` -/

/-- Python exception classes arising in the task body of
`parse_and_store`. -/
inductive PyExc where
  | typeError
  | keyError
  | pyMongoError
  | otherExc
  deriving DecidableEq, Repr

/-- How the coroutine of `parse_product.parse` would end for one URL if it
ran, as seen by the `try/except` in `parse_and_store`: a parsed `Product`
serialized to the JSONL line `line`, a raised `errors.FetchError`, a raised
`errors.ParseError` (both caught, logged, and the URL skipped), or an
exception of any other class (e.g. `aiohttp.ClientError`, which the
`fetch_html` of `parse_product.py` actually raises on network failure),
which no `except` clause matches. -/
inductive ParseOutcome where
  | ok (product : Product) (line : String)
  | fetchErr
  | parseErr
  | otherErr
  deriving DecidableEq, Repr

/-- The parameters accepted by `parse_product.parse`
(`async def parse(url: str) -> dict`). -/
def parseParams : List String := ["url"]

/-- The keyword arguments `parse_and_store` passes to `parse_product.parse`
beyond the positional `url`:
`parse_product.parse(url, debug_html_path=debug_path)`. -/
def parseCallKwargs : List String := ["debug_html_path"]

/-- Python call binding: a keyword argument whose name is not among the
parameters of the callee raises `TypeError` at the call site, before the
function body (for a coroutine function: before any of its code, hence
before any fetch) runs. -/
def bindCall (params kwargs : List String) : Except PyExc Unit :=
  if kwargs.all (fun k => params.contains k) then .ok () else .error .typeError

/-- Per-URL behaviour of the environment in one run: what the
`parse_product.parse` coroutine would do for the URL, and which
`update_one` calls for it would raise `PyMongoError`. -/
structure UrlBehavior where
  parse : ParseOutcome
  storeFails : Nat → Bool

/-- Result of the `for attempt in range(3)` upsert loop in
`parse_and_store`: the document was stored (`break`); the third
`PyMongoError` was logged and the product dropped (`return`); an exception
matched by no handler escaped the loop; or the loop exhausted its indices
without a `break` or `return`, so control falls through to the line write.
Each result records how many `update_one` calls were made and the backoff
sleeps performed. -/
inductive StoreResult where
  | stored (upsertCalls : Nat) (sleeps : List Nat)
  | droppedLogged (upsertCalls : Nat) (sleeps : List Nat)
  | uncaught (exc : PyExc) (upsertCalls : Nat) (sleeps : List Nat)
  | fellThrough (upsertCalls : Nat) (sleeps : List Nat)
  deriving DecidableEq, Repr

/-- Body of the upsert retry loop, iterating over the `range(3)` indices.
Inside the `try`, the filter argument `{"_id": product["url"]}` is
evaluated before `update_one` is called: a missing `"url"` key raises
`KeyError`, which `except PyMongoError` does not catch — the loop is
abandoned with no call made, no sleep and nothing logged.  Otherwise
`attemptFails k` says whether the `update_one` call at 0-based index `k`
raises `PyMongoError`; mirrors: on success `break`; on `PyMongoError`, if
`attempt == 2` log and `return` (product dropped), else
`await asyncio.sleep(2 * (attempt + 1))` and continue. -/
def storeGo (product : List (String × PyValue)) (attemptFails : Nat → Bool) :
    List Nat → Nat → List Nat → StoreResult
  | [], calls, sleeps => .fellThrough calls sleeps
  | a :: rest, calls, sleeps =>
    match dictGet product "url" with
    | none => .uncaught .keyError calls sleeps
    | some _ =>
        if attemptFails a then
          if a = 2 then .droppedLogged (calls + 1) sleeps
          else storeGo product attemptFails rest (calls + 1)
            (sleeps ++ [2 * (a + 1)])
        else .stored (calls + 1) sleeps

/-- The upsert retry loop of `parse_and_store`, over `range(3)`. -/
def upsertWithRetries (product : List (String × PyValue))
    (attemptFails : Nat → Bool) : StoreResult :=
  storeGo product attemptFails [0, 1, 2] 0 []

/-- `parse_and_store(url)` (the task body in `gather_products`), as the
source executes it.  The call
`parse_product.parse(url, debug_html_path=debug_path)` binds a keyword
argument `parse` does not declare, so Python raises `TypeError` inside the
`try` before any fetch; neither `except FetchError` nor
`except ParseError` matches it, so it escapes the task.  The remaining
branches embed the rest of the body — none of it reachable: were a product
dict obtained, the upsert loop would raise `KeyError` at `product["url"]`
(the dict has no such key); only after a `break` or a loop fall-through is
the JSONL line written.  `.error` models an exception that escapes the
task and is re-raised by `asyncio.gather`; the `Option String` is the line
the task appended under the write lock, if any. -/
def parse_and_store (b : UrlBehavior) : Except PyExc (Option String) := do
  let _ ← bindCall parseParams parseCallKwargs
  match b.parse with
  | .fetchErr => .ok none
  | .parseErr => .ok none
  | .otherErr => .error .otherExc
  | .ok product line =>
      match upsertWithRetries (asdictProduct product) b.storeFails with
      | .stored _ _ => .ok (some line)
      | .droppedLogged _ _ => .ok none
      | .uncaught exc _ _ => .error exc
      | .fellThrough _ _ => .ok (some line)

/-- One step of the batch: run the task for `u` and append its output line,
if any, to the lines written so far. -/
def gatherStep (env : String → UrlBehavior) (lines : List String) (u : String) :
    Except PyExc (List String) := do
  let w ← parse_and_store (env u)
  match w with
  | some l => pure (lines ++ [l])
  | none => pure lines

/-- `gather_products(db, urls, out_fh)`:
`await asyncio.gather(*(parse_and_store(u) for u in urls))` — every URL gets
its own task; an exception escaping any task propagates out of `gather` and
aborts the batch (and, `gather_products` being awaited inside the
`with atomic_writer(out_file)` block of `main`, the temporary output file
is then discarded).  The value is the sequence of lines written to the
output file. -/
def gather_products (env : String → UrlBehavior) (urls : List String) :
    Except PyExc (List String) :=
  urls.foldlM (gatherStep env) []

/-! ## Concrete scenarios used to instantiate the theorems below -/

/-- A category page with two subcategories. -/
def c2SubcatsOf : String → Except String (List String) := fun u =>
  if u = "https://cat" then .ok ["https://sub1", "https://sub2"]
  else .error "unexpected category"

/-- A run in which the pagination walk of the first subcategory raises and
the second subcategory holds one product link. -/
def c2WalkOf : String → Except String (List ProductLink) := fun u =>
  if u = "https://sub1" then .error "FetchError: https://sub1"
  else .ok [⟨"t2", "https://p2"⟩]

/-- A listing whose first page contains no product links but does link to a
second page holding one product. -/
def c3Env : WalkEnv :=
  ⟨fun u => if u = "https://c?page=2" then "html2" else "html1",
   fun html _ => if html = "html2" then [⟨"t2", "https://prod2"⟩] else [],
   fun html _ => if html = "html1" then some "https://c?page=2" else none⟩

/-- A page whose extraction yields no links and no next-page link. -/
def c3StopEnv : WalkEnv :=
  ⟨fun _ => "page-html", fun _ _ => [], fun _ _ => none⟩

/-- A listing whose page-2 request is redirected to the base page: both URLs
serve the same base content, whose rel-next link resolves to the page-2
URL. -/
def c4Env : WalkEnv :=
  ⟨fun _ => "base-html",
   fun html _ => if html = "base-html" then [⟨"t1", "https://prod1"⟩] else [],
   fun _ _ => some "https://c?page=2"⟩

/-- A site whose next-page links form a two-page cycle: page a points to
page b and page b back to page a (the served HTML is identified with the
requested URL). -/
def cycEnv : WalkEnv :=
  ⟨fun u => u,
   fun _ _ => [],
   fun html _ => if html = "https://a" then some "https://b" else some "https://a"⟩

/-- A page whose rel-next link resolves back to the page itself. -/
def selfLoopEnv : WalkEnv :=
  ⟨fun _ => "html", fun _ _ => [⟨"t", "https://u"⟩], fun _ cur => some cur⟩

/-- A filesystem holding prior content at the destination path. -/
def c6Fs : Fs := fun q => if q = "data/out.jsonl" then some "old content" else none

/-- A deterministic fresh-name chooser for `tempfile.mkstemp`. -/
def c6Mkstemp : String → String := fun d => d ++ "/tmp1234"

/-- A fetch whose first two attempts raise and whose third succeeds. -/
def c9Att : Nat → Except String (String × String) := fun n =>
  if n = 3 then .ok ("html", "final") else .error "net down"

/-! ## Theorems -/

/-- C1: the dict `parse_product.parse` returns has exactly the `Product`
dataclass fields as keys and no `url` key, so the subscript
`product["url"]` that `parse_and_store` uses as the upsert `_id` raises
`KeyError` for every parsed product: the write keyed by the source URL
never happens. -/
theorem product_dict_has_no_url_key (p : Product) :
    (asdictProduct p).map Prod.fst =
      ["title", "description", "article", "brand", "country_of_origin",
       "warranty_months", "category", "created_at", "attributes",
       "suppliers"] ∧
    dictGet (asdictProduct p) "url" = none := by
  exact ⟨rfl, rfl⟩

/-- C3 counterexample: the first listing page of `c3Env` yields zero
extracted links, yet the walker fetches the second page and returns the
links found there — it does not return only the links of pages `1..k-1`
(here `[]`) and it performs a further fetch after the zero-link page. -/
theorem zero_links_does_not_stop_walk :
    c3Env.parseLinks (c3Env.fetchHtml "https://c") "https://c" = [] ∧
    walk c3Env "https://c" 10 =
      some ([⟨"t2", "https://prod2"⟩], ["https://c", "https://c?page=2"]) ∧
    walk c3Env "https://c" 10 ≠ some ([], ["https://c"]) := by
  refine ⟨rfl, by decide, by decide⟩

/-- C3 amended: zero extracted links alone does not terminate the walk; the
walker stops after the page it just fetched exactly when that page yields
no next-page link (or an empty or repeating one).  When the walk reaches
page *k* with the links of pages `1..k-1` accumulated and page *k* yields
zero links and no next-page link, the walker returns exactly the
accumulated links and fetches no page beyond *k*. -/
theorem walk_stops_on_no_next_link (env : WalkEnv) (base pageUrl : String)
    (results : List ProductLink) (fetched : List String) (fuel : Nat)
    (hlinks : env.parseLinks (env.fetchHtml pageUrl) base = [])
    (hnext : env.findNextPage (env.fetchHtml pageUrl) pageUrl = none) :
    walkAux env base (fuel + 1) pageUrl results fetched =
      some (results, fetched ++ [pageUrl]) := by
  simp [walkAux, hlinks, hnext]

/-- C3 witness: the amended statement evaluated on a concrete page with no
links and no next-page link. -/
theorem walk_stops_on_no_next_link_witness :
    walkAux c3StopEnv "https://s" 1 "https://s" [] [] =
      some ([], ["https://s"]) := by
  exact walk_stops_on_no_next_link c3StopEnv "https://s" "https://s" [] [] 0 rfl rfl

/-- C4 counterexample: in `c4Env` the page-2 request is redirected to the
base content (same HTML), and the walker extends its results with the links
re-extracted from that duplicate content before stopping: it returns the
base-page link twice, not the links of pages `1..k-1` only. -/
theorem redirect_links_not_excluded :
    c4Env.fetchHtml "https://c?page=2" = c4Env.fetchHtml "https://c" ∧
    walk c4Env "https://c" 10 =
      some ([⟨"t1", "https://prod1"⟩, ⟨"t1", "https://prod1"⟩],
            ["https://c", "https://c?page=2"]) ∧
    walk c4Env "https://c" 10 ≠
      some ([⟨"t1", "https://prod1"⟩], ["https://c"]) := by
  refine ⟨rfl, by decide, by decide⟩

/-- C4 amended: the walker has no redirect detection — it never sees the
resolved URL.  When the request for page 2 is redirected back to the base
URL (both requests serve the same content, whose next-page link resolves to
the page-2 URL), the walker appends the links re-extracted from the
duplicate content to its result and only then stops, because the derived
next-page URL equals the page URL it just requested. -/
theorem redirect_duplicate_links_included (env : WalkEnv) (base p2 : String)
    (fuel : Nat) (hbase : base ≠ "")
    (hnext1 : env.findNextPage (env.fetchHtml base) base = some p2)
    (hp2e : p2 ≠ "") (hp2b : p2 ≠ base)
    (hredir : env.fetchHtml p2 = env.fetchHtml base)
    (hnext2 : env.findNextPage (env.fetchHtml base) p2 = some p2) :
    walk env base (fuel + 2) =
      some (env.parseLinks (env.fetchHtml base) base ++
              env.parseLinks (env.fetchHtml base) base, [base, p2]) := by
  simp [walk, hbase, walkAux, hnext1, hredir, hnext2, hp2e, hp2b]

/-- C4 witness: the amended statement evaluated on the concrete redirect
scenario. -/
theorem redirect_duplicate_links_included_witness :
    walk c4Env "https://c" 2 =
      some ([⟨"t1", "https://prod1"⟩, ⟨"t1", "https://prod1"⟩],
            ["https://c", "https://c?page=2"]) := by
  have h := redirect_duplicate_links_included c4Env "https://c" "https://c?page=2"
    0 (by decide) rfl (by decide) (by decide) rfl rfl
  exact h.trans (by decide)

/-- On the two-page cycle `cycEnv`, the loop never leaves the pair of page
URLs and so never terminates, whatever the fuel. -/
theorem cycEnv_walkAux_eq_none (fuel : Nat) :
    ∀ (pageUrl : String) (results : List ProductLink) (fetched : List String),
      pageUrl = "https://a" ∨ pageUrl = "https://b" →
      walkAux cycEnv "https://a" fuel pageUrl results fetched = none := by
  induction fuel with
  | zero => intro _ _ _ _; rfl
  | succ n ih =>
      intro pageUrl results fetched hp
      rcases hp with h | h <;> subst h
      · rw [show walkAux cycEnv "https://a" (n + 1) "https://a" results fetched =
            walkAux cycEnv "https://a" n "https://b" (results ++ [])
              (fetched ++ ["https://a"]) from rfl]
        exact ih _ _ _ (Or.inr rfl)
      · rw [show walkAux cycEnv "https://a" (n + 1) "https://b" results fetched =
            walkAux cycEnv "https://a" n "https://a" (results ++ [])
              (fetched ++ ["https://b"]) from rfl]
        exact ih _ _ _ (Or.inl rfl)

/-- C5 counterexample: on a pagination sequence whose next-page links form
a two-page cycle (`a → b → a → …`) the walker loops forever — the
repeating-URL safety stop only compares the next URL with the page just
requested, so a cycle of length two is never detected. -/
theorem two_page_cycle_diverges : ¬ WalkTerminates cycEnv "https://a" := by
  rintro ⟨fuel, h⟩
  have hw := cycEnv_walkAux_eq_none fuel "https://a" [] [] (Or.inl rfl)
  rw [show walk cycEnv "https://a" fuel =
      walkAux cycEnv "https://a" fuel "https://a" [] [] from rfl, hw] at h
  exact Bool.noConfusion h

/-- C5 amended: the only repeating-URL guard is against an immediate
self-loop — when the next-page link extracted from the page just fetched
resolves to that same page URL, the walker stops there and returns the
links accumulated so far (including those of the current page); cycles
through two or more distinct page URLs are not detected and the walk does
not terminate on them. -/
theorem self_loop_next_url_stops_walk (env : WalkEnv) (base pageUrl : String)
    (results : List ProductLink) (fetched : List String) (fuel : Nat)
    (hnext : env.findNextPage (env.fetchHtml pageUrl) pageUrl = some pageUrl) :
    walkAux env base (fuel + 1) pageUrl results fetched =
      some (results ++ env.parseLinks (env.fetchHtml pageUrl) base,
            fetched ++ [pageUrl]) := by
  simp [walkAux, hnext]

/-- C5 witness: the amended statement evaluated on a concrete self-looping
page. -/
theorem self_loop_next_url_stops_walk_witness :
    walkAux selfLoopEnv "https://s" 1 "https://s" [] [] =
      some ([⟨"t", "https://u"⟩], ["https://s"]) := by
  have h := self_loop_next_url_stops_walk selfLoopEnv "https://s" "https://s"
    [] [] 0 rfl
  exact h.trans (by decide)

/-- C2 counterexample: the first subcategory walk of `c2WalkOf` raises, and
`gather_product_links` — whose `for` loop has no `try/except` — propagates
the exception instead of catching it: the whole link collection aborts, and
the result is not the link list of the surviving sibling subcategory. -/
theorem category_walk_failure_aborts_batch :
    gather_product_links c2SubcatsOf c2WalkOf "https://cat" =
      Except.error "FetchError: https://sub1" ∧
    gather_product_links c2SubcatsOf c2WalkOf "https://cat" ≠
      Except.ok ["https://p2"] := by
  constructor
  · rfl
  · intro h
    rw [show gather_product_links c2SubcatsOf c2WalkOf "https://cat" =
        Except.error "FetchError: https://sub1" from rfl] at h
    exact Except.noConfusion h

/-- C2 amended: no failure isolation operates in this program.  An
exception during one subcategory pagination walk propagates out of
`gather_product_links`, whose loop has no handler, and aborts the sibling
categories and the run (counterexample above); and every product task
raises `TypeError` when it calls `parse_product.parse` with the
`debug_html_path` keyword the function does not declare — before any fetch,
and matched by neither `except` clause — so a single collected URL aborts
the whole batch.  Only a `FetchError` or `ParseError` raised by the parse
call would be caught, logged and skipped, but the call never gets that
far: those handlers are dead code. -/
theorem product_task_type_error_aborts_batch (env : String → UrlBehavior)
    (u : String) (rest : List String) :
    parse_and_store (env u) = .error .typeError ∧
    gather_products env (u :: rest) = .error .typeError := by
  exact ⟨rfl, rfl⟩

/-- C10 counterexample: the price-row loop applies no non-negativity check
— a row whose `data-price` parses to a negative number is included with
that negative price — and a present but non-parseable price raises
`ValueError`, aborting the whole product parse instead of dropping the
row. -/
theorem negative_price_row_included :
    parsePriceRows [⟨none, some "-5", none⟩] = some [⟨1, none, -5⟩] ∧
    ((-5 : ℚ) < 0) ∧
    parsePriceRows [⟨none, some "N/A", none⟩] = none := by
  refine ⟨by decide, by norm_num, by decide⟩

/-- C10 amended: a price row whose `data-price` attribute is missing or
empty is dropped from the PriceInfo sequence of its offer — never inserted
with a placeholder zero price; but no non-negativity check is applied (a
parseable negative price is included as is), and a present, non-empty,
non-parseable price raises `ValueError` and aborts the product parse
rather than dropping the row. -/
theorem falsy_price_row_dropped (pre post : List PriceRow) (row : PriceRow)
    (h : row.data_price = none ∨ row.data_price = some "") :
    parsePriceRows (pre ++ row :: post) = parsePriceRows (pre ++ post) := by
  induction pre with
  | nil =>
      simp only [List.nil_append]
      rcases h with h | h
      · rw [parsePriceRows, h]
      · rw [parsePriceRows, h]
        simp
  | cons r rest ih =>
      simp only [List.cons_append]
      rw [parsePriceRows, parsePriceRows]
      obtain ⟨q, p, d⟩ := r
      cases p with
      | none => exact ih
      | some s =>
          by_cases hs : s = "" <;> simp only [hs, if_true, if_false, ih]

/-- C10 witness: the amended statement evaluated on a concrete offer block:
the row with a missing price is dropped and no zero-price tier appears. -/
theorem falsy_price_row_dropped_witness :
    parsePriceRows [⟨none, some "100", none⟩, ⟨none, none, none⟩] =
      some [⟨1, none, 100⟩] := by
  have h := falsy_price_row_dropped [⟨none, some "100", none⟩] []
    ⟨none, none, none⟩ (Or.inl rfl)
  exact h.trans (by decide)

/-- C6: `atomic_writer` writes only to a fresh temporary file created in
the directory of the destination (`tempfile.mkstemp(dir=dirname(path) or
".")`).  When the run body exits with a fatal error the temporary file is
discarded and every path of the filesystem — in particular the destination
— is exactly as before the run; only when the body completes normally is
the temporary file renamed onto the destination, which then holds the
written content while the temporary name is gone and all other paths are
untouched. -/
theorem fsWrite_self (fs : Fs) (p c : String) : fsWrite fs p c p = some c := by
  simp [fsWrite]

theorem fsWrite_other (fs : Fs) (p c q : String) (h : q ≠ p) :
    fsWrite fs p c q = fs q := by
  simp [fsWrite, h]

theorem fsRemove_self (fs : Fs) (p : String) : fsRemove fs p p = none := by
  simp [fsRemove]

theorem fsRemove_other (fs : Fs) (p q : String) (h : q ≠ p) :
    fsRemove fs p q = fs q := by
  simp [fsRemove, h]

theorem atomic_writer_contract (mkstemp : String → String) (fs : Fs)
    (path : String) (run : WriterRun)
    (hfresh :
      fs (mkstemp (if dirname path = "" then "." else dirname path)) = none) :
    (run.fatal = true → ∀ q, atomic_writer mkstemp fs path run q = fs q) ∧
    (run.fatal = false →
      atomic_writer mkstemp fs path run path = some run.written ∧
      ∀ q, q ≠ path → atomic_writer mkstemp fs path run q = fs q) := by
  constructor
  · intro hf q
    simp only [atomic_writer, hf, if_true]
    by_cases hq : q = mkstemp (if dirname path = "" then "." else dirname path)
    · subst hq
      rw [fsRemove_self]
      exact hfresh.symm
    · rw [fsRemove_other _ _ _ hq, fsWrite_other _ _ _ _ hq,
        fsWrite_other _ _ _ _ hq]
  · intro hf
    constructor
    · simp only [atomic_writer, hf, Bool.false_eq_true, if_false]
      rw [fsWrite_self]
    · intro q hq
      simp only [atomic_writer, hf, Bool.false_eq_true, if_false]
      rw [fsWrite_other _ _ _ _ hq]
      by_cases hqt : q = mkstemp (if dirname path = "" then "." else dirname path)
      · subst hqt
        rw [fsRemove_self]
        exact hfresh.symm
      · rw [fsRemove_other _ _ _ hqt, fsWrite_other _ _ _ _ hqt,
          fsWrite_other _ _ _ _ hqt]

/-- C6 witness: the contract evaluated on a concrete filesystem with prior
destination content, once for a fatal run and once for a completed run. -/
theorem atomic_writer_contract_witness :
    atomic_writer c6Mkstemp c6Fs "data/out.jsonl" ⟨"partial", true⟩
      "data/out.jsonl" = some "old content" ∧
    atomic_writer c6Mkstemp c6Fs "data/out.jsonl" ⟨"line1", false⟩
      "data/out.jsonl" = some "line1" := by
  constructor
  · have h := (atomic_writer_contract c6Mkstemp c6Fs "data/out.jsonl"
      ⟨"partial", true⟩ (by decide)).1 rfl "data/out.jsonl"
    exact h.trans (by decide)
  · exact ((atomic_writer_contract c6Mkstemp c6Fs "data/out.jsonl"
      ⟨"line1", false⟩ (by decide)).2 rfl).1

/-- C7: the claimed retry policy never operates.  For every parsed product
— whose dict, per `asdict`, has no `"url"` key — the first loop iteration
raises `KeyError` while evaluating the filter argument
`{"_id": product["url"]}` inside the `try`: zero `update_one` calls are
made, no backoff sleep happens, and no database failure is logged
(`except PyMongoError` does not catch `KeyError`); the exception escapes
the loop, so the store-then-write unit never reaches a line decision.  (In
the program as written the loop is not even reached: the parse call raises
`TypeError` first.) -/
theorem upsert_loop_key_error (p : Product) (attemptFails : Nat → Bool) :
    upsertWithRetries (asdictProduct p) attemptFails =
      .uncaught .keyError 0 [] := by
  exact rfl

/-- C8: the claimed per-URL accounting is unreachable.  The only run that
completes is the one whose collected link list is empty, and it writes
zero lines (zero distinct successful URLs); a run with any collected URL
aborts with the uncaught `TypeError` of its first product task, so —
`gather_products` being awaited inside the `with atomic_writer` block —
the temporary file is discarded, no output file is produced, and no line
is ever written for any URL. -/
theorem output_lines_never_produced (env : String → UrlBehavior)
    (u : String) (rest : List String) :
    gather_products env [] = .ok [] ∧
    gather_products env (u :: rest) = .error .typeError := by
  exact ⟨rfl, rfl⟩

/-- Every iteration of the fetch retry loop appends one attempt, so the
recorded attempts never exceed the remaining budget. -/
theorem fetchGo_attempts_le {E R : Type} (attemptRes : Nat → Except E R)
    (retries : Nat) :
    ∀ (remaining attempt : Nat) (tried sleeps : List Nat),
      (fetchGo attemptRes retries remaining attempt tried
          sleeps).attemptsOf.length ≤ tried.length + remaining := by
  intro remaining
  induction remaining with
  | zero => intro attempt tried sleeps; simp [fetchGo, FetchOutcome.attemptsOf]
  | succ n ih =>
      intro attempt tried sleeps
      rw [fetchGo]
      cases attemptRes attempt with
      | ok r => simp [FetchOutcome.attemptsOf]
      | error exc =>
          by_cases ha : attempt = retries
          · simp [ha, FetchOutcome.attemptsOf]
          · simp only [ha, if_false]
            calc (fetchGo attemptRes retries n (attempt + 1)
                    (tried ++ [attempt]) (sleeps ++ [2 * attempt])).attemptsOf.length
                ≤ (tried ++ [attempt]).length + n := ih _ _ _
              _ ≤ tried.length + (n + 1) := by simp; omega

/-- When attempts `attempt, …, k-1` raise and attempt `k ≤ retries`
succeeds, the loop returns the result of attempt `k` having tried exactly
`attempt..k` and slept `2*attempt, …, 2*(k-1)` seconds. -/
theorem fetchGo_succeeds {E R : Type} (attemptRes : Nat → Except E R)
    (retries : Nat) :
    ∀ (remaining attempt : Nat) (tried sleeps : List Nat) (k : Nat) (r : R),
      attempt + remaining = retries + 1 → attempt ≤ k → k ≤ retries →
      (∀ j, attempt ≤ j → j < k → ∃ e, attemptRes j = .error e) →
      attemptRes k = .ok r →
      fetchGo attemptRes retries remaining attempt tried sleeps =
        .ok r (tried ++ List.range' attempt (k + 1 - attempt))
          (sleeps ++ (List.range' attempt (k - attempt)).map
            (fun a => 2 * a)) := by
  intro remaining
  induction remaining with
  | zero =>
      intro attempt tried sleeps k r hsum hak hkr _ _
      omega
  | succ n ih =>
      intro attempt tried sleeps k r hsum hak hkr hfail hok
      rw [fetchGo]
      by_cases hek : attempt = k
      · subst hek
        rw [hok]
        have h1 : attempt + 1 - attempt = 1 := by omega
        have h0 : attempt - attempt = 0 := by omega
        simp [h1, h0]
      · have hlt : attempt < k := by omega
        obtain ⟨e, he⟩ := hfail attempt le_rfl hlt
        simp only [he]
        have har : attempt ≠ retries := by omega
        rw [if_neg har]
        rw [ih (attempt + 1) (tried ++ [attempt]) (sleeps ++ [2 * attempt]) k r
          (by omega) (by omega) hkr
          (fun j hj hjk => hfail j (by omega) hjk) hok]
        have h1 : k + 1 - attempt = (k + 1 - (attempt + 1)) + 1 := by omega
        have h2 : k - attempt = (k - (attempt + 1)) + 1 := by omega
        rw [h1, h2, List.range'_succ, List.range'_succ]
        simp

/-- When every attempt in `attempt..retries` raises, the loop raises
`FetchError` chained to the exception of the final attempt, having tried
exactly `attempt..retries` and slept `2*attempt, …, 2*(retries-1)`
seconds. -/
theorem fetchGo_exhausts {E R : Type} (attemptRes : Nat → Except E R)
    (retries : Nat) :
    ∀ (remaining attempt : Nat) (tried sleeps : List Nat) (e : Nat → E),
      attempt + remaining = retries + 1 → attempt ≤ retries →
      (∀ j, attempt ≤ j → j ≤ retries → attemptRes j = .error (e j)) →
      fetchGo attemptRes retries remaining attempt tried sleeps =
        .fetchError (e retries)
          (tried ++ List.range' attempt (retries + 1 - attempt))
          (sleeps ++ (List.range' attempt (retries - attempt)).map
            (fun a => 2 * a)) := by
  intro remaining
  induction remaining with
  | zero =>
      intro attempt tried sleeps e hsum har _
      omega
  | succ n ih =>
      intro attempt tried sleeps e hsum har hfail
      rw [fetchGo]
      simp only [hfail attempt le_rfl har]
      by_cases hae : attempt = retries
      · subst hae
        rw [if_pos rfl]
        have h1 : attempt + 1 - attempt = 1 := by omega
        have h0 : attempt - attempt = 0 := by omega
        simp [h1, h0]
      · rw [if_neg hae]
        rw [ih (attempt + 1) (tried ++ [attempt]) (sleeps ++ [2 * attempt]) e
          (by omega) (by omega) (fun j hj hjr => hfail j (by omega) hjr)]
        have h1 : retries + 1 - attempt = (retries + 1 - (attempt + 1)) + 1 := by
          omega
        have h2 : retries - attempt = (retries - (attempt + 1)) + 1 := by omega
        rw [h1, h2, List.range'_succ, List.range'_succ]
        simp

/-- C9: for `retries ≥ 1`, `fetch_html_with_retries` makes at most
`retries` attempts; when attempts `1..k-1` raise and attempt `k ≤ retries`
succeeds, it returns the `(html, final_url)` of attempt `k` after exactly
`k-1` backoff sleeps of `2 * attempt_number` seconds each (attempt 1 → 2s,
attempt 2 → 4s); and when every attempt raises, it raises a `FetchError`
chained to the exception of the last attempt. -/
theorem fetch_retries_contract {E R : Type} (attemptRes : Nat → Except E R)
    (retries : Nat) (hr : 1 ≤ retries) :
    ((fetch_html_with_retries attemptRes retries).attemptsOf.length ≤ retries) ∧
    (∀ k r, 1 ≤ k → k ≤ retries →
      (∀ j, 1 ≤ j → j < k → ∃ e, attemptRes j = .error e) →
      attemptRes k = .ok r →
      fetch_html_with_retries attemptRes retries =
        .ok r (List.range' 1 k)
          ((List.range' 1 (k - 1)).map (fun a => 2 * a))) ∧
    (∀ e : Nat → E, (∀ j, 1 ≤ j → j ≤ retries → attemptRes j = .error (e j)) →
      fetch_html_with_retries attemptRes retries =
        .fetchError (e retries) (List.range' 1 retries)
          ((List.range' 1 (retries - 1)).map (fun a => 2 * a))) := by
  refine ⟨?_, ?_, ?_⟩
  · have h := fetchGo_attempts_le attemptRes retries retries 1 [] []
    simpa [fetch_html_with_retries] using h
  · intro k r hk hkr hfail hok
    have h := fetchGo_succeeds attemptRes retries retries 1 [] [] k r
      (by omega) hk hkr hfail hok
    have h1 : k + 1 - 1 = k := by omega
    simpa [fetch_html_with_retries, h1] using h
  · intro e hfail
    have h := fetchGo_exhausts attemptRes retries retries 1 [] [] e
      (by omega) hr hfail
    have h1 : retries + 1 - 1 = retries := by omega
    simpa [fetch_html_with_retries, h1] using h

/-- C9 witness: a fetch failing on attempts 1 and 2 and succeeding on
attempt 3, with the default `retries = 3`: the successful result is
returned after exactly two backoff sleeps of 2 and 4 seconds. -/
theorem fetch_retries_contract_witness :
    fetch_html_with_retries c9Att 3 = .ok ("html", "final") [1, 2, 3] [2, 4] := by
  have h := (fetch_retries_contract c9Att 3 (by norm_num)).2.1 3 ("html", "final")
    (by norm_num) (by norm_num)
    (fun j hj1 hj2 => ⟨"net down", by interval_cases j <;> rfl⟩) rfl
  exact h.trans (by decide)

end Pulscen
